import Mathlib

/-!
Verification of the core of the JaguarLandRoverDiagnostic repository
(a UDS/ISO-TP diagnostic host for JLR ECUs) against its natural-language
specification.  Every definition below is a shallow embedding of a Rust
item of the repository, translated from the source under src/src-tauri/src:
machine integers (u8/u16/u32) become Nat with the masking the source itself
performs, fallible or panicking code returns Option, and the blocking poll
loops of the UDS client are modelled by explicit recursion over the finite
list of read batches that arrive before the deadline elapses (a timeout is
the exhaustion of that list).  Definitions whose name matches a Rust symbol
are bit-for-bit translations of that symbol.
-/

namespace JLR

/-! ### Generic bit-manipulation lemmas used throughout -/

/-- Shifting right distributes over bitwise and. -/
theorem and_shiftRight_dist (x y k : Nat) :
    (x &&& y) >>> k = (x >>> k) &&& (y >>> k) := by
  apply Nat.eq_of_testBit_eq
  intro i
  simp [Nat.testBit_shiftRight, Nat.testBit_and, Nat.add_assoc]

/-- Masking with 0xFF is reduction mod 256. -/
theorem and_255_eq_mod (x : Nat) : x &&& 0xFF = x % 256 := by
  have h : (0xFF : Nat) = 2 ^ 8 - 1 := by norm_num
  rw [h, Nat.and_pow_two_sub_one_eq_mod]

/-- Masking with 0xFFFFFF is reduction mod 2^24. -/
theorem and_mask24_eq_mod (x : Nat) : x &&& 0xFFFFFF = x % 2 ^ 24 := by
  have h : (0xFFFFFF : Nat) = 2 ^ 24 - 1 := by norm_num
  rw [h, Nat.and_pow_two_sub_one_eq_mod]

/-! ### Security key engine (src/src-tauri/src/uds/keygen.rs)

The Rust function keygen_mki takes a u32 seed (only the low 24 bits are
used) and a 5-byte constant array; we model the array as a list accessed
with getD, mirroring constants[i]. -/

/-- One iteration of the shift-register update shared by both loops of
keygen_mki (the loop body in keygen.rs lines 30-40 and 44-54): feed bit i
of the input word, shift, and recombine with the XOR-feedback taps. -/
def lfsrStep (input r i : Nat) : Nat :=
  let sknum10 := ((((input >>> i) &&& 1) ^^^ (r &&& 1)) <<< 0x17) ||| (r >>> 1)
  let old := r >>> 1
  let hb := (sknum10 &&& 0x800000) >>> 0x17
  (sknum10 &&& 0xEF6FD7)
    ||| ((((sknum10 &&& 0x100000) >>> 0x14) ^^^ hb) <<< 0x14)
    ||| ((((old &&& 0x8000) >>> 0xF) ^^^ hb) <<< 0xF)
    ||| ((((old &&& 0x1000) >>> 0xC) ^^^ hb) <<< 0xC)
    ||| (0x20 * (((old &&& 0x20) >>> 5) ^^^ hb))
    ||| (8 * (((old &&& 8) >>> 3) ^^^ hb))

/-- Thirty-two iterations of lfsrStep, bits 0..31 of the input word. -/
def lfsrRun (input r0 : Nat) : Nat :=
  (List.range 0x20).foldl (fun r i => lfsrStep input r i) r0

/-- KeyGenMkI, translated from keygen_mki in uds/keygen.rs. -/
def keygen_mki (seed : Nat) (constants : List Nat) : Nat :=
  let sknum := constants.getD 0 0
  let sknum2 := constants.getD 1 0
  let sknum3 := constants.getD 2 0
  let sknum4 := constants.getD 3 0
  let sknum5 := constants.getD 4 0
  let sknum13 := (seed >>> 0x10) &&& 0xFF
  let b2 := (seed >>> 8) &&& 0xFF
  let b3 := seed &&& 0xFF
  let sknum6 := (sknum13 <<< 0x10) + (b2 <<< 8) + b3
  let sknum7 := ((sknum6 &&& 0xFF0000) >>> 0x10)
    ||| (sknum6 &&& 0xFF00)
    ||| (sknum <<< 0x18)
    ||| ((sknum6 &&& 0xFF) <<< 0x10)
  let r1 := lfsrRun sknum7 0xC541A9
  let fc := (sknum5 <<< 0x18) ||| (sknum4 <<< 0x10) ||| sknum2 ||| (sknum3 <<< 8)
  let r2 := lfsrRun fc r1
  let r := ((r2 &&& 0xF0000) >>> 0x10)
    ||| (0x10 * (r2 &&& 0xF))
    ||| ((((r2 &&& 0xF00000) >>> 0x14) ||| ((r2 &&& 0xF000) >>> 8)) <<< 8)
    ||| (((r2 &&& 0xFF0) >>> 4) <<< 0x10)
  r &&& 0xFFFFFF

/-- IMC DC0314 security constants (uds/keygen.rs). -/
def DC0314_CONSTANTS : List Nat := [0x65, 0xF8, 0x24, 0xAC, 0x8F]

/-! #### The reference transformation of the specification (section 4.D)

These definitions follow the WORDS of the spec, to be compared with
keygen_mki above.  keygenRefStep is the step of spec step 3, keygenRef
the full transformation with the final reorder exactly as the spec (and
claim C1) write it, and keygenRefAmended the same with the reorder term
((r >> 12) & 0xF0) replaced by ((r >> 8) & 0xF0). -/

/-- Spec section 4.D step 3, verbatim from its formulas. -/
def keygenRefStep (input r i : Nat) : Nat :=
  let b := (input >>> i) &&& 1
  let f := b ^^^ (r &&& 1)
  let r' := (f <<< 23) ||| (r >>> 1)
  let old := r >>> 1
  let hb := (r' >>> 23) &&& 1
  (r' &&& 0xEF6FD7)
    ||| ((((r' >>> 20) &&& 1) ^^^ hb) <<< 20)
    ||| ((((old >>> 15) &&& 1) ^^^ hb) <<< 15)
    ||| ((((old >>> 12) &&& 1) ^^^ hb) <<< 12)
    ||| ((((old >>> 5) &&& 1) ^^^ hb) <<< 5)
    ||| ((((old >>> 3) &&& 1) ^^^ hb) <<< 3)

/-- The two 32-iteration phases of the spec reference, shared by both
variants of the final reorder. -/
def keygenRefState (seed : Nat) (constants : List Nat) : Nat :=
  let c0 := constants.getD 0 0
  let c1 := constants.getD 1 0
  let c2 := constants.getD 2 0
  let c3 := constants.getD 3 0
  let c4 := constants.getD 4 0
  let s := seed &&& 0xFFFFFF
  let in1 := (c0 <<< 24) ||| ((s &&& 0xFF) <<< 16) ||| (s &&& 0xFF00) ||| ((s >>> 16) &&& 0xFF)
  let rA := (List.range 32).foldl (fun r i => keygenRefStep in1 r i) 0xC541A9
  let in2 := (c4 <<< 24) ||| (c3 <<< 16) ||| (c2 <<< 8) ||| c1
  (List.range 32).foldl (fun r i => keygenRefStep in2 r i) rA

/-- The spec (and claim C1) reference transformation, final reorder written
exactly as in spec section 4.D step 5. -/
def keygenRef (seed : Nat) (constants : List Nat) : Nat :=
  let r := keygenRefState seed constants
  (((r &&& 0xF0000) >>> 16) ||| ((r &&& 0xF) <<< 4)
    ||| ((((r >>> 20) &&& 0xF) ||| ((r >>> 12) &&& 0xF0)) <<< 8)
    ||| (((r >>> 4) &&& 0xFF) <<< 16)) &&& 0xFFFFFF

/-- The amended reference: identical to keygenRef except that the third
reorder term reads ((r >> 8) & 0xF0), i.e. bits 12..15 of r, instead of
the ((r >> 12) & 0xF0) (bits 16..19) the spec wrote. -/
def keygenRefAmended (seed : Nat) (constants : List Nat) : Nat :=
  let r := keygenRefState seed constants
  (((r &&& 0xF0000) >>> 16) ||| ((r &&& 0xF) <<< 4)
    ||| ((((r >>> 20) &&& 0xF) ||| ((r >>> 8) &&& 0xF0)) <<< 8)
    ||| (((r >>> 4) &&& 0xFF) <<< 16)) &&& 0xFFFFFF

/-- The code step and the spec step agree on every input. -/
theorem lfsrStep_eq_refStep (input r i : Nat) :
    lfsrStep input r i = keygenRefStep input r i := by
  unfold lfsrStep keygenRefStep
  simp only [and_shiftRight_dist]
  have h20 : (0x100000 : Nat) >>> 20 = 1 := by decide
  have h23 : (0x800000 : Nat) >>> 23 = 1 := by decide
  have h15 : (0x8000 : Nat) >>> 15 = 1 := by decide
  have h12 : (0x1000 : Nat) >>> 12 = 1 := by decide
  have h5 : (0x20 : Nat) >>> 5 = 1 := by decide
  have h3 : (8 : Nat) >>> 3 = 1 := by decide
  norm_num [h20, h23, h15, h12, h5, h3, Nat.shiftLeft_eq, Nat.mul_comm]

/-- The packed input word of the code equals the low 24 bits of the seed. -/
theorem sknum6_eq_mask (seed : Nat) :
    (((seed >>> 0x10) &&& 0xFF) <<< 0x10) + (((seed >>> 8) &&& 0xFF) <<< 8)
      + (seed &&& 0xFF) = seed &&& 0xFFFFFF := by
  rw [and_255_eq_mod, and_255_eq_mod, and_255_eq_mod, and_mask24_eq_mod,
      Nat.shiftRight_eq_div_pow, Nat.shiftRight_eq_div_pow,
      Nat.shiftLeft_eq, Nat.shiftLeft_eq]
  norm_num
  omega

/-- Left-commutativity of bitwise or, for AC-normalisation by simp. -/
theorem lor_left_comm (a b c : Nat) : a ||| (b ||| c) = b ||| (a ||| c) := by
  rw [← Nat.lor_assoc, Nat.lor_comm a b, Nat.lor_assoc]

/-- The code keygen equals the spec reference with the amended final
reorder, for every seed and every constant list. -/
theorem keygen_eq_amended (seed : Nat) (c : List Nat) :
    keygen_mki seed c = keygenRefAmended seed c := by
  simp only [keygen_mki, keygenRefAmended, keygenRefState, lfsrRun,
    lfsrStep_eq_refStep, sknum6_eq_mask]
  have hin1 : ∀ s k : Nat,
      ((s &&& 0xFF0000) >>> 0x10) ||| (s &&& 0xFF00) ||| (k <<< 0x18)
          ||| ((s &&& 0xFF) <<< 0x10)
        = (k <<< 24) ||| ((s &&& 0xFF) <<< 16) ||| (s &&& 0xFF00)
          ||| ((s >>> 16) &&& 0xFF) := by
    intro s k
    rw [and_shiftRight_dist]
    have h1 : (0xFF0000 : Nat) >>> 0x10 = 0xFF := by decide
    norm_num [h1, Nat.lor_comm, Nat.lor_assoc, lor_left_comm]
  have hin2 : ∀ a b d e : Nat,
      (a <<< 0x18) ||| (b <<< 0x10) ||| e ||| (d <<< 8)
        = (a <<< 24) ||| (b <<< 16) ||| (d <<< 8) ||| e := by
    intro a b d e
    norm_num [Nat.lor_comm, Nat.lor_assoc, lor_left_comm]
  have hfin : ∀ r : Nat,
      ((r &&& 0xF0000) >>> 0x10) ||| (0x10 * (r &&& 0xF))
          ||| ((((r &&& 0xF00000) >>> 0x14) ||| ((r &&& 0xF000) >>> 8)) <<< 8)
          ||| (((r &&& 0xFF0) >>> 4) <<< 0x10)
        = ((r &&& 0xF0000) >>> 16) ||| ((r &&& 0xF) <<< 4)
          ||| ((((r >>> 20) &&& 0xF) ||| ((r >>> 8) &&& 0xF0)) <<< 8)
          ||| (((r >>> 4) &&& 0xFF) <<< 16) := by
    intro r
    simp only [and_shiftRight_dist]
    have h1 : (0xF00000 : Nat) >>> 0x14 = 0xF := by decide
    have h2 : (0xF000 : Nat) >>> 8 = 0xF0 := by decide
    have h3 : (0xFF0 : Nat) >>> 4 = 0xFF := by decide
    norm_num [h1, h2, h3, Nat.shiftLeft_eq, Nat.mul_comm]
  rw [hin1, hin2, hfin]

set_option maxRecDepth 4096 in
/-- C1 (counterexample): at the 24-bit seed 0x112233 with the repository's
own DC0314 5-byte constants, keygen_mki yields 0x4B909C while the reference
transformation exactly as claim C1 states it (final reorder term
((r >> 12) & 0xF0)) yields 0x4BC09C, so the claimed bit-for-bit agreement
fails. -/
theorem C1_counterexample :
    keygen_mki 0x112233 DC0314_CONSTANTS = 0x4B909C ∧
    keygenRef 0x112233 DC0314_CONSTANTS = 0x4BC09C ∧
    keygen_mki 0x112233 DC0314_CONSTANTS ≠ keygenRef 0x112233 DC0314_CONSTANTS := by
  refine ⟨by decide, by decide, by decide⟩

/-- C1 (amended): for every seed and every 5-byte constant array,
keygen_mki agrees bit-for-bit with the reference transformation of the
spec once its final-reorder term ((r >> 12) & 0xF0) is read as
((r >> 8) & 0xF0), i.e. bits 12..15 of the register rather than bits
16..19; and the result always lies in [0, 2^24). -/
theorem C1_keygen_amended_reference (seed : Nat) (constants : List Nat) :
    keygen_mki seed constants = keygenRefAmended seed constants ∧
    keygen_mki seed constants < 2 ^ 24 := by
  refine ⟨keygen_eq_amended seed constants, ?_⟩
  show _ &&& _ < _
  exact Nat.and_lt_two_pow _ (by norm_num)

/-! ### Negative response codes (src/src-tauri/src/uds/error.rs) -/

/-- UDS negative response codes, mirroring the Rust enum
NegativeResponseCode in uds/error.rs. -/
inductive Nrc where
  | generalReject
  | serviceNotSupported
  | subFunctionNotSupported
  | incorrectMessageLengthOrInvalidFormat
  | responseTooLong
  | busyRepeatRequest
  | conditionsNotCorrect
  | requestSequenceError
  | noResponseFromSubnetComponent
  | failurePreventsExecutionOfRequestedAction
  | requestOutOfRange
  | securityAccessDenied
  | authenticationRequired
  | invalidKey
  | exceededNumberOfAttempts
  | requiredTimeDelayNotExpired
  | secureDataTransmissionRequired
  | secureDataTransmissionNotAllowed
  | secureDataVerificationFailed
  | uploadDownloadNotAccepted
  | transferDataSuspended
  | generalProgrammingFailure
  | wrongBlockSequenceCounter
  | requestCorrectlyReceivedResponsePending
  | subFunctionNotSupportedInActiveSession
  | serviceNotSupportedInActiveSession
  | unknown (code : Nat)
  deriving DecidableEq

namespace Nrc

/-- NegativeResponseCode::from_byte. -/
def fromByte (byte : Nat) : Nrc :=
  match byte with
  | 0x10 => .generalReject
  | 0x11 => .serviceNotSupported
  | 0x12 => .subFunctionNotSupported
  | 0x13 => .incorrectMessageLengthOrInvalidFormat
  | 0x14 => .responseTooLong
  | 0x21 => .busyRepeatRequest
  | 0x22 => .conditionsNotCorrect
  | 0x24 => .requestSequenceError
  | 0x25 => .noResponseFromSubnetComponent
  | 0x26 => .failurePreventsExecutionOfRequestedAction
  | 0x31 => .requestOutOfRange
  | 0x33 => .securityAccessDenied
  | 0x34 => .authenticationRequired
  | 0x35 => .invalidKey
  | 0x36 => .exceededNumberOfAttempts
  | 0x37 => .requiredTimeDelayNotExpired
  | 0x38 => .secureDataTransmissionRequired
  | 0x39 => .secureDataTransmissionNotAllowed
  | 0x3A => .secureDataVerificationFailed
  | 0x70 => .uploadDownloadNotAccepted
  | 0x71 => .transferDataSuspended
  | 0x72 => .generalProgrammingFailure
  | 0x73 => .wrongBlockSequenceCounter
  | 0x78 => .requestCorrectlyReceivedResponsePending
  | 0x7E => .subFunctionNotSupportedInActiveSession
  | 0x7F => .serviceNotSupportedInActiveSession
  | other => .unknown other

/-- NegativeResponseCode::to_byte. -/
def toByte : Nrc → Nat
  | .generalReject => 0x10
  | .serviceNotSupported => 0x11
  | .subFunctionNotSupported => 0x12
  | .incorrectMessageLengthOrInvalidFormat => 0x13
  | .responseTooLong => 0x14
  | .busyRepeatRequest => 0x21
  | .conditionsNotCorrect => 0x22
  | .requestSequenceError => 0x24
  | .noResponseFromSubnetComponent => 0x25
  | .failurePreventsExecutionOfRequestedAction => 0x26
  | .requestOutOfRange => 0x31
  | .securityAccessDenied => 0x33
  | .authenticationRequired => 0x34
  | .invalidKey => 0x35
  | .exceededNumberOfAttempts => 0x36
  | .requiredTimeDelayNotExpired => 0x37
  | .secureDataTransmissionRequired => 0x38
  | .secureDataTransmissionNotAllowed => 0x39
  | .secureDataVerificationFailed => 0x3A
  | .uploadDownloadNotAccepted => 0x70
  | .transferDataSuspended => 0x71
  | .generalProgrammingFailure => 0x72
  | .wrongBlockSequenceCounter => 0x73
  | .requestCorrectlyReceivedResponsePending => 0x78
  | .subFunctionNotSupportedInActiveSession => 0x7E
  | .serviceNotSupportedInActiveSession => 0x7F
  | .unknown code => code

/-- NegativeResponseCode::is_pending. -/
def isPending : Nrc → Bool
  | .requestCorrectlyReceivedResponsePending => true
  | _ => false

end Nrc

/-- One uppercase hexadecimal digit. -/
def hexDigit (d : Nat) : Char :=
  "0123456789ABCDEF".data.getD d '0'

/-- Rust formatting {:02X} of a byte value: two uppercase hex digits. -/
def toHex2 (n : Nat) : String :=
  String.mk [hexDigit (n / 16 % 16), hexDigit (n % 16)]

/-- The Display implementation for NegativeResponseCode in uds/error.rs. -/
def nrcDisplay : Nrc → String
  | .generalReject => "General reject (0x10)"
  | .serviceNotSupported => "Service not supported (0x11)"
  | .subFunctionNotSupported => "Sub-function not supported (0x12)"
  | .incorrectMessageLengthOrInvalidFormat =>
      "Incorrect message length or invalid format (0x13)"
  | .responseTooLong => "Response too long (0x14)"
  | .busyRepeatRequest => "Busy - repeat request (0x21)"
  | .conditionsNotCorrect => "Conditions not correct (0x22)"
  | .requestSequenceError => "Request sequence error (0x24)"
  | .noResponseFromSubnetComponent => "No response from subnet component (0x25)"
  | .failurePreventsExecutionOfRequestedAction =>
      "Failure prevents execution of requested action (0x26)"
  | .requestOutOfRange => "Request out of range (0x31)"
  | .securityAccessDenied => "Security access denied (0x33)"
  | .authenticationRequired => "Authentication required (0x34)"
  | .invalidKey => "Invalid key (0x35)"
  | .exceededNumberOfAttempts => "Exceeded number of attempts (0x36)"
  | .requiredTimeDelayNotExpired => "Required time delay not expired (0x37)"
  | .secureDataTransmissionRequired => "Secure data transmission required (0x38)"
  | .secureDataTransmissionNotAllowed => "Secure data transmission not allowed (0x39)"
  | .secureDataVerificationFailed => "Secure data verification failed (0x3A)"
  | .uploadDownloadNotAccepted => "Upload/download not accepted (0x70)"
  | .transferDataSuspended => "Transfer data suspended (0x71)"
  | .generalProgrammingFailure => "General programming failure (0x72)"
  | .wrongBlockSequenceCounter => "Wrong block sequence counter (0x73)"
  | .requestCorrectlyReceivedResponsePending =>
      "Request correctly received - response pending (0x78)"
  | .subFunctionNotSupportedInActiveSession =>
      "Sub-function not supported in active session (0x7E)"
  | .serviceNotSupportedInActiveSession =>
      "Service not supported in active session (0x7F)"
  | .unknown code => "Unknown NRC (0x" ++ toHex2 code ++ ")"

/-- The byte values carried by the named (non-unknown) NRC variants. -/
def namedNrcBytes : List Nat :=
  [0x10, 0x11, 0x12, 0x13, 0x14, 0x21, 0x22, 0x24, 0x25, 0x26, 0x31, 0x33,
   0x34, 0x35, 0x36, 0x37, 0x38, 0x39, 0x3A, 0x70, 0x71, 0x72, 0x73, 0x78,
   0x7E, 0x7F]

set_option maxRecDepth 8192 in
/-- C6: for every byte, from_byte then to_byte is the identity (in
particular for every byte of the enumerated code set); every byte outside
the enumerated set maps to Unknown(b), which converts back to the byte and
displays in the "Unknown NRC (0xBB)" style. -/
theorem C6_nrc_roundtrip :
    (∀ b : Nat, b < 256 → (Nrc.fromByte b).toByte = b) ∧
    (∀ b : Nat, b < 256 → b ∉ namedNrcBytes → Nrc.fromByte b = .unknown b) ∧
    Nrc.fromByte 0xBB = .unknown 0xBB ∧
    (Nrc.fromByte 0xBB).toByte = 0xBB ∧
    nrcDisplay (Nrc.fromByte 0xBB) = "Unknown NRC (0xBB)" := by
  refine ⟨?_, ?_, by decide, by decide, by decide⟩
  · decide
  · decide

/-- C6 witness: concrete instances of the bounded quantifications. -/
theorem C6_nrc_roundtrip_witness :
    (Nrc.fromByte 0x21).toByte = 0x21 ∧ Nrc.fromByte 0xAA = .unknown 0xAA :=
  ⟨C6_nrc_roundtrip.1 0x21 (by decide),
   C6_nrc_roundtrip.2.1 0xAA (by decide) (by decide)⟩

/-! ### Pass-through message envelope (src/src-tauri/src/j2534/types.rs)

The Rust struct PassThruMsg carries a fixed 4128-byte buffer; we model the
buffer as a function from index to byte (indices outside the buffer are
never read by the modelled operations, whose bounds checks are explicit).
Operations that can panic in Rust (out-of-bounds slicing) return Option,
with none standing for the panic. -/

def PROTOCOL_ISO15765 : Nat := 6
def ISO15765_FRAME_PAD : Nat := 0x40
def MAX_DATA_SIZE : Nat := 4128

/-- PASSTHRU_MSG, mirroring j2534/types.rs. -/
structure PassThruMsg where
  protocol_id : Nat
  rx_status : Nat
  tx_flags : Nat
  timestamp : Nat
  data_size : Nat
  extra_data_index : Nat
  data : Nat → Nat

/-- The envelope that PassThruMsg::new_iso15765 builds when its slice
writes are in bounds: CAN ID big-endian in data[0..4], payload copied at
data[4..4+len], all other buffer bytes left at the zero default. -/
def mkIso15765 (tx_id : Nat) (payload : List Nat) : PassThruMsg where
  protocol_id := PROTOCOL_ISO15765
  rx_status := 0
  tx_flags := ISO15765_FRAME_PAD
  timestamp := 0
  data_size := 4 + payload.length
  extra_data_index := 0
  data := fun i =>
    if i = 0 then (tx_id >>> 24) &&& 0xFF
    else if i = 1 then (tx_id >>> 16) &&& 0xFF
    else if i = 2 then (tx_id >>> 8) &&& 0xFF
    else if i = 3 then tx_id &&& 0xFF
    else if i < 4 + payload.length then payload.getD (i - 4) 0
    else 0

/-- PassThruMsg::new_iso15765.  The copy_from_slice into
data[4..4+payload.len()] panics (none) when 4 + len exceeds the 4128-byte
buffer. -/
def PassThruMsg.new_iso15765 (tx_id : Nat) (payload : List Nat) :
    Option PassThruMsg :=
  if 4 + payload.length ≤ MAX_DATA_SIZE then some (mkIso15765 tx_id payload)
  else none

/-- PassThruMsg::payload: the slice data[4..data_size], empty when
data_size ≤ 4; the slice panics (none) when data_size exceeds the
4128-byte buffer. -/
def PassThruMsg.payload (m : PassThruMsg) : Option (List Nat) :=
  if 4 < m.data_size then
    if m.data_size ≤ MAX_DATA_SIZE then
      some ((List.range (m.data_size - 4)).map (fun i => m.data (4 + i)))
    else none
  else some []

/-- PassThruMsg::can_id. -/
def PassThruMsg.can_id (m : PassThruMsg) : Nat :=
  ((m.data 0) <<< 24) ||| ((m.data 1) <<< 16) ||| ((m.data 2) <<< 8) ||| (m.data 3)

/-- Recombining the four big-endian bytes of a 32-bit value restores it. -/
theorem byte_recomb (n : Nat) (h : n < 2 ^ 32) :
    (((n >>> 24) &&& 0xFF) <<< 24) ||| (((n >>> 16) &&& 0xFF) <<< 16)
      ||| (((n >>> 8) &&& 0xFF) <<< 8) ||| (n &&& 0xFF) = n := by
  have hmask : ∀ x : Nat, x &&& 0xFF = x % 2 ^ 8 := by
    intro x; rw [and_255_eq_mod]; norm_num
  apply Nat.eq_of_testBit_eq
  intro i
  simp only [hmask, Nat.testBit_or, Nat.testBit_shiftLeft, Nat.testBit_mod_two_pow,
    Nat.testBit_shiftRight]
  by_cases h32 : 32 ≤ i
  · have hn : n.testBit i = false :=
      Nat.testBit_lt_two_pow
        (lt_of_lt_of_le h (Nat.pow_le_pow_right (by norm_num) h32))
    simp [hn, show ¬ (i - 24 < 8) by omega, show ¬ (i - 16 < 8) by omega,
      show ¬ (i - 8 < 8) by omega, show ¬ (i < 8) by omega]
  · by_cases h24 : 24 ≤ i
    · simp [show i ≥ 24 by omega, show i - 24 < 8 by omega,
        show 24 + (i - 24) = i by omega, show ¬ (i - 16 < 8) by omega,
        show ¬ (i - 8 < 8) by omega, show ¬ (i < 8) by omega]
    · by_cases h16 : 16 ≤ i
      · simp [show ¬ (i ≥ 24) by omega, show i ≥ 16 by omega,
          show i - 16 < 8 by omega, show 16 + (i - 16) = i by omega,
          show ¬ (i - 8 < 8) by omega, show ¬ (i < 8) by omega]
      · by_cases h8 : 8 ≤ i
        · simp [show ¬ (i ≥ 24) by omega, show ¬ (i ≥ 16) by omega,
            show i ≥ 8 by omega, show i - 8 < 8 by omega,
            show 8 + (i - 8) = i by omega, show ¬ (i < 8) by omega]
        · simp [show ¬ (i ≥ 24) by omega, show ¬ (i ≥ 16) by omega,
            show ¬ (i ≥ 8) by omega, show i < 8 by omega]

/-- Reading back a list element-by-element with getD reproduces the list. -/
theorem range_map_getD (l : List Nat) (d : Nat) :
    (List.range l.length).map (fun i => l.getD i d) = l := by
  apply List.ext_getElem
  · simp
  · intro i h1 h2
    simp [List.getElem_map, List.getElem_range, List.getD_eq_getElem?_getD,
      List.getElem?_eq_getElem h2]

/-- The payload bytes sit at offsets 4..4+len of the envelope buffer. -/
theorem mkIso15765_data_payload (tx_id : Nat) (payload : List Nat)
    (i : Nat) (hi : i < payload.length) :
    (mkIso15765 tx_id payload).data (4 + i) = payload.getD i 0 := by
  simp [mkIso15765, show (4 : Nat) + i ≠ 0 by omega, show (4 : Nat) + i ≠ 1 by omega,
    show (4 : Nat) + i ≠ 2 by omega, show (4 : Nat) + i ≠ 3 by omega, hi]

/-- can_id() reads back the tx_id the envelope was built from. -/
theorem mkIso15765_canId (tx_id : Nat) (payload : List Nat)
    (htx : tx_id < 2 ^ 32) :
    (mkIso15765 tx_id payload).can_id = tx_id := by
  have h0 : (mkIso15765 tx_id payload).data 0 = (tx_id >>> 24) &&& 0xFF := rfl
  have h1 : (mkIso15765 tx_id payload).data 1 = (tx_id >>> 16) &&& 0xFF := rfl
  have h2 : (mkIso15765 tx_id payload).data 2 = (tx_id >>> 8) &&& 0xFF := rfl
  have h3 : (mkIso15765 tx_id payload).data 3 = tx_id &&& 0xFF := rfl
  unfold PassThruMsg.can_id
  rw [h0, h1, h2, h3]
  exact byte_recomb tx_id htx

/-- payload() reads back the payload the envelope was built from. -/
theorem mkIso15765_payload (tx_id : Nat) (payload : List Nat)
    (hlen : payload.length ≤ 4124) :
    (mkIso15765 tx_id payload).payload = some payload := by
  have hds : (mkIso15765 tx_id payload).data_size = 4 + payload.length := rfl
  unfold PassThruMsg.payload
  rw [hds]
  rcases Nat.eq_zero_or_pos payload.length with hz | hp
  · have he : payload = [] := List.eq_nil_of_length_eq_zero hz
    subst he
    simp
  · rw [if_pos (by omega), if_pos (by unfold MAX_DATA_SIZE; omega)]
    have hlen4 : 4 + payload.length - 4 = payload.length := by omega
    rw [hlen4]
    congr 1
    calc (List.range payload.length).map
            (fun i => (mkIso15765 tx_id payload).data (4 + i))
        = (List.range payload.length).map (fun i => payload.getD i 0) := by
          apply List.map_congr_left
          intro i hi
          exact mkIso15765_data_payload tx_id payload i (List.mem_range.mp hi)
      _ = payload := range_map_getD payload 0

/-- C4: for every u32 tx_id and every payload of at most 4124 bytes, the
ISO-TP envelope has protocol id 6, the 0x40 pad bit set in tx_flags,
data_size = 4 + len, the first four data bytes carrying tx_id big-endian,
the payload copied at offsets 4..4+len; consequently can_id() returns
tx_id and payload() returns the payload (data_size = 4 and payload() = []
for the empty payload). -/
theorem C4_iso15765_envelope (tx_id : Nat) (payload : List Nat)
    (htx : tx_id < 2 ^ 32) (hlen : payload.length ≤ 4124) :
    PassThruMsg.new_iso15765 tx_id payload = some (mkIso15765 tx_id payload) ∧
    (mkIso15765 tx_id payload).protocol_id = 6 ∧
    (mkIso15765 tx_id payload).tx_flags &&& 0x40 ≠ 0 ∧
    (mkIso15765 tx_id payload).data_size = 4 + payload.length ∧
    (mkIso15765 tx_id payload).data 0 = tx_id / 2 ^ 24 % 256 ∧
    (mkIso15765 tx_id payload).data 1 = tx_id / 2 ^ 16 % 256 ∧
    (mkIso15765 tx_id payload).data 2 = tx_id / 2 ^ 8 % 256 ∧
    (mkIso15765 tx_id payload).data 3 = tx_id % 256 ∧
    (∀ i, i < payload.length → (mkIso15765 tx_id payload).data (4 + i) = payload.getD i 0) ∧
    (mkIso15765 tx_id payload).can_id = tx_id ∧
    (mkIso15765 tx_id payload).payload = some payload := by
  refine ⟨?_, rfl, ?_, rfl, ?_, ?_, ?_, ?_,
    fun i hi => mkIso15765_data_payload tx_id payload i hi,
    mkIso15765_canId tx_id payload htx, mkIso15765_payload tx_id payload hlen⟩
  · unfold PassThruMsg.new_iso15765 MAX_DATA_SIZE
    rw [if_pos (by omega)]
  · show ISO15765_FRAME_PAD &&& 0x40 ≠ 0
    decide
  · show (tx_id >>> 24) &&& 0xFF = _
    rw [and_255_eq_mod, Nat.shiftRight_eq_div_pow]
  · show (tx_id >>> 16) &&& 0xFF = _
    rw [and_255_eq_mod, Nat.shiftRight_eq_div_pow]
  · show (tx_id >>> 8) &&& 0xFF = _
    rw [and_255_eq_mod, Nat.shiftRight_eq_div_pow]
  · show tx_id &&& 0xFF = _
    rw [and_255_eq_mod]

/-- C4 witness: the envelope for tx 0x7B3 with payload 22 F1 90. -/
theorem C4_iso15765_envelope_witness :
    PassThruMsg.new_iso15765 0x7B3 [0x22, 0xF1, 0x90]
        = some (mkIso15765 0x7B3 [0x22, 0xF1, 0x90]) ∧
    (mkIso15765 0x7B3 [0x22, 0xF1, 0x90]).can_id = 0x7B3 ∧
    (mkIso15765 0x7B3 [0x22, 0xF1, 0x90]).payload = some [0x22, 0xF1, 0x90] :=
  have h := C4_iso15765_envelope 0x7B3 [0x22, 0xF1, 0x90] (by decide) (by decide)
  ⟨h.1, h.2.2.2.2.2.2.2.2.2.1, h.2.2.2.2.2.2.2.2.2.2⟩

/-! ### UDS client (src/src-tauri/src/uds/client.rs)

The send_recv poll loop runs until the overall deadline elapses, reading a
batch of messages every 500 ms.  We model the loop by recursion over the
finite list of read batches delivered before the deadline: exhausting the
list is the timeout.  The outer Option models a Rust panic (indexing
request[0] on an empty request, or out-of-bounds slicing in
new_iso15765/payload); log callbacks are modelled by returning the list of
emitted log entries. -/

/-- LogDirection from uds/client.rs. -/
inductive LogDirection where
  | tx
  | rx
  | error
  | pending
  deriving DecidableEq

/-- LogEntry from uds/client.rs (wall-clock timestamp omitted: it is an
effect of the clock, not of the protocol logic). -/
structure LogEntry where
  direction : LogDirection
  data : List Nat
  description : String
  deriving DecidableEq

/-- UdsError from uds/error.rs. -/
inductive UdsError where
  | negativeResponse (service_id : Nat) (nrc : Nrc)
  | timeout
  | invalidResponse (reason : String)
  | transportError (reason : String)
  | notConnected
  | securityError (reason : String)
  deriving DecidableEq

/-- describe_service from uds/client.rs. -/
def describe_service (service_id : Nat) : String :=
  match service_id with
  | 0x10 => "DiagnosticSessionControl"
  | 0x11 => "ECUReset"
  | 0x22 => "ReadDataByIdentifier"
  | 0x27 => "SecurityAccess"
  | 0x2E => "WriteDataByIdentifier"
  | 0x31 => "RoutineControl"
  | 0x34 => "RequestDownload"
  | 0x36 => "TransferData"
  | 0x37 => "RequestTransferExit"
  | 0x3E => "TesterPresent"
  | other => "Service 0x" ++ toHex2 other

/-- A received envelope carrying UDS payload p (the rx CAN id in the
header bytes is never read by the client, so it is left zero; this is
mkIso15765 with tx 0). -/
def mkRxMsg (p : List Nat) : PassThruMsg := mkIso15765 0 p

/-- Processing of one received message inside the send_recv loop of
uds/client.rs (lines 112-159): skip short frames, classify 7F frames
(pending swallowed with a Pending log, any other NRC returned as
NegativeResponse regardless of the echoed service id), accept the
service_id+0x40 positive response, log-and-skip anything else.  Result:
none = panic, some (none, logs) = continue polling, some (some r, logs) =
loop finished. -/
def clientStep (service_id : Nat) (m : PassThruMsg) :
    Option (Option (Except UdsError (List Nat)) × List LogEntry) :=
  if m.data_size ≤ 4 then some (none, [])
  else match m.payload with
  | none => none
  | some p =>
    if p.isEmpty then some (none, [])
    else if p.headD 0 = 0x7F ∧ 3 ≤ p.length then
      let resp_service := p.getD 1 0
      let nrc := Nrc.fromByte (p.getD 2 0)
      if nrc.isPending then
        some (none, [⟨.pending, p, "Response pending..."⟩])
      else
        some (some (.error (.negativeResponse resp_service nrc)),
          [⟨.error, p, "NRC: " ++ nrcDisplay nrc⟩])
    else if p.headD 0 = service_id + 0x40 then
      some (some (.ok p), [⟨.rx, p, describe_service service_id⟩])
    else
      some (none, [⟨.error, p, "Unexpected response: expected 0x"
        ++ toHex2 (service_id + 0x40) ++ ", got 0x" ++ toHex2 (p.headD 0)⟩])

/-- One batch of messages returned by a single channel read. -/
def clientBatch (service_id : Nat) :
    List PassThruMsg → Option (Option (Except UdsError (List Nat)) × List LogEntry)
  | [] => some (none, [])
  | m :: ms =>
    match clientStep service_id m with
    | none => none
    | some (some r, logs) => some (some r, logs)
    | some (none, logs) =>
      match clientBatch service_id ms with
      | none => none
      | some (res, logs2) => some (res, logs ++ logs2)

/-- The poll loop of send_recv over the read batches delivered before the
deadline; exhaustion of the list is the timeout. -/
def clientLoop (service_id : Nat) :
    List (List PassThruMsg) → Option (Except UdsError (List Nat) × List LogEntry)
  | [] => some (.error .timeout, [⟨.error, [], "Timeout waiting for response"⟩])
  | batch :: rest =>
    match clientBatch service_id batch with
    | none => none
    | some (some r, logs) => some (r, logs)
    | some (none, logs) =>
      match clientLoop service_id rest with
      | none => none
      | some (r, logs2) => some (r, logs ++ logs2)

/-- UdsClient::send_recv (uds/client.rs lines 78-163): reads request[0]
(panic on an empty request), logs Tx, frames the request (panic if it
exceeds the buffer), then polls. -/
def UdsClient.send_recv (tx_id : Nat) (request : List Nat)
    (reads : List (List PassThruMsg)) :
    Option (Except UdsError (List Nat) × List LogEntry) :=
  match request.head? with
  | none => none
  | some service_id =>
    match PassThruMsg.new_iso15765 tx_id request with
    | none => none
    | some _ =>
      match clientLoop service_id reads with
      | none => none
      | some (r, logs) =>
        some (r, ⟨.tx, request, describe_service service_id⟩ :: logs)

/-- UdsClient::send_no_response (uds/client.rs lines 166-176): logs Tx
(reads request[0], panic on empty), frames and writes, never polls. -/
def UdsClient.send_no_response (tx_id : Nat) (request : List Nat) :
    Option (List LogEntry) :=
  match request.head? with
  | none => none
  | some service_id =>
    match PassThruMsg.new_iso15765 tx_id request with
    | none => none
    | some _ => some [⟨.tx, request, describe_service service_id⟩]

/-- Decidable equality for Except, used to evaluate the client models on
concrete inputs. -/
instance exceptDecEq {ε α : Type} [DecidableEq ε] [DecidableEq α] :
    DecidableEq (Except ε α) := fun x y =>
  match x, y with
  | .ok a, .ok b =>
    if h : a = b then isTrue (by rw [h])
    else isFalse (fun hc => h (Except.ok.inj hc))
  | .error a, .error b =>
    if h : a = b then isTrue (by rw [h])
    else isFalse (fun hc => h (Except.error.inj hc))
  | .ok _, .error _ => isFalse (fun hc => Except.noConfusion hc)
  | .error _, .ok _ => isFalse (fun hc => Except.noConfusion hc)

/-- Any 7F frame with NRC byte 0x78 makes the send_recv loop continue
polling, emitting exactly one Pending log record. -/
theorem pending_swallowed (sid : Nat) (m : PassThruMsg) (p : List Nat)
    (hp : m.payload = some p) (hds : 4 < m.data_size)
    (h0 : p.headD 0 = 0x7F) (h3 : 3 ≤ p.length) (h78 : p.getD 2 0 = 0x78) :
    clientStep sid m = some (none, [⟨.pending, p, "Response pending..."⟩]) := by
  unfold clientStep
  rw [if_neg (by omega), hp]
  have hne : p.isEmpty = false := by
    cases p with
    | nil => simp at h3
    | cons a t => rfl
  simp only [hne, Bool.false_eq_true, if_false, h78]
  rw [if_pos ⟨h0, h3⟩]
  rfl

/-- C5: a negative response with NRC 0x78 (ResponsePending) is never
surfaced as an error: the frame is swallowed with a Pending log record and
polling continues; and in the concrete scenario (request 31 01 60 3E 01,
answered first by 7F 31 78 and then by 71 01 60 3E within the deadline)
the client returns [71, 01, 60, 3E] with the Pending record in the log. -/
theorem C5_pending_swallowed :
    (∀ sid : Nat, ∀ m : PassThruMsg, ∀ p : List Nat,
      m.payload = some p → 4 < m.data_size → p.headD 0 = 0x7F →
      3 ≤ p.length → p.getD 2 0 = 0x78 →
      clientStep sid m = some (none, [⟨.pending, p, "Response pending..."⟩])) ∧
    UdsClient.send_recv 0x7B3 [0x31, 0x01, 0x60, 0x3E, 0x01]
        [[mkRxMsg [0x7F, 0x31, 0x78]], [mkRxMsg [0x71, 0x01, 0x60, 0x3E]]]
      = some (.ok [0x71, 0x01, 0x60, 0x3E],
          [⟨.tx, [0x31, 0x01, 0x60, 0x3E, 0x01], "RoutineControl"⟩,
           ⟨.pending, [0x7F, 0x31, 0x78], "Response pending..."⟩,
           ⟨.rx, [0x71, 0x01, 0x60, 0x3E], "RoutineControl"⟩]) := by
  constructor
  · exact pending_swallowed
  · decide

/-- C5 witness: the general clause at the concrete pending frame 7F 31 78. -/
theorem C5_pending_swallowed_witness :
    clientStep 0x31 (mkRxMsg [0x7F, 0x31, 0x78])
      = some (none, [⟨.pending, [0x7F, 0x31, 0x78], "Response pending..."⟩]) :=
  C5_pending_swallowed.1 0x31 (mkRxMsg [0x7F, 0x31, 0x78]) [0x7F, 0x31, 0x78]
    (by decide) (by decide) (by decide) (by decide) (by decide)

/-- C2 (counterexample): UdsClient::send_recv does NOT ignore a negative
response whose echoed service id differs from the request: with request
22 F1 90 in flight and only the stale frame 7F 10 12 arriving, it returns
NegativeResponse{service_id = 0x10, nrc = 0x12} instead of Timeout. -/
theorem C2_counterexample :
    (UdsClient.send_recv 0x7B3 [0x22, 0xF1, 0x90]
        [[mkRxMsg [0x7F, 0x10, 0x12]]]).map Prod.fst
      = some (.error (.negativeResponse 0x10 .subFunctionNotSupported)) ∧
    (UdsClient.send_recv 0x7B3 [0x22, 0xF1, 0x90]
        [[mkRxMsg [0x7F, 0x10, 0x12]]]).map Prod.fst
      ≠ some (.error .timeout) := by
  constructor
  · decide
  · decide

/-! ### Command-layer UDS send path (src/src-tauri/src/commands.rs)

send_uds_request_once is the single-attempt send-and-receive of
commands.rs (lines 2359-2426); unlike UdsClient::send_recv it ignores
negative responses whose echoed service id differs from request[0].
Errors are the strings the Rust code produces.  send_uds_request wraps it
in the busy-retry for-loop (lines 2333-2356), modelled by busyLoopFrom
below with the loop counter and the remaining iteration count made
explicit. -/

/-- Processing of one received message inside the poll loop of
send_uds_request_once: none = panic, some none = keep polling,
some (some r) = done. -/
def onceStep (request : List Nat) (m : PassThruMsg) :
    Option (Option (Except String (List Nat))) :=
  if m.data_size ≤ 4 then some none
  else match m.payload with
  | none => none
  | some p =>
    if p.isEmpty then some none
    else if p.headD 0 = 0x7F ∧ 3 ≤ p.length then
      match request.head? with
      | none => none
      | some r0 =>
        if p.getD 1 0 ≠ r0 then some none
        else if p.getD 2 0 = 0x78 then some none
        else some (some (.error ("NRC: " ++ nrcDisplay (Nrc.fromByte (p.getD 2 0)))))
    else
      match request.head? with
      | none => none
      | some r0 =>
        if p.headD 0 = r0 + 0x40 then some (some (.ok p)) else some none

/-- One read batch of the send_uds_request_once poll loop. -/
def onceBatch (request : List Nat) :
    List PassThruMsg → Option (Option (Except String (List Nat)))
  | [] => some none
  | m :: ms =>
    match onceStep request m with
    | none => none
    | some (some r) => some (some r)
    | some none => onceBatch request ms

/-- The poll loop of send_uds_request_once with the deadline modelled by
the finite list of read batches; exhaustion is the timeout. -/
def onceLoop (request : List Nat) :
    List (List PassThruMsg) → Option (Except String (List Nat))
  | [] => some (.error "Timeout waiting for response")
  | batch :: rest =>
    match onceBatch request batch with
    | none => none
    | some (some r) => some r
    | some none => onceLoop request rest

/-- send_uds_request_once (commands.rs lines 2359-2426). -/
def send_uds_request_once (tx_id : Nat) (request : List Nat)
    (reads : List (List PassThruMsg)) : Option (Except String (List Nat)) :=
  match PassThruMsg.new_iso15765 tx_id request with
  | none => none
  | some _ => onceLoop request reads

/-- Substring test on character lists, mirroring Rust str::contains. -/
def listContainsSub (s pat : List Char) : Bool :=
  (List.range (s.length + 1)).any (fun i => pat.isPrefixOf (s.drop i))

/-- Rust str::contains: does s contain pat as a substring. -/
def strContains (s pat : String) : Bool :=
  listContainsSub s.data pat.data

def max_busy_retries : Nat := 6

/-- The for-loop of send_uds_request (commands.rs lines 2335-2353),
busy_attempt in 0..=6: on Ok return it; on an error whose message contains
"0x21" with busy_attempt < 6, sleep one second and retry; otherwise return
the error.  The first argument counts the remaining loop iterations (7 at
entry); when it reaches zero the loop has fallen through and the function
returns the "Max busy retries exceeded" error. -/
def busyLoopFrom (attempts : Nat → Except String (List Nat)) :
    Nat → Nat → Except String (List Nat)
  | 0, _ => .error "Max busy retries exceeded"
  | rem + 1, i =>
    match attempts i with
    | .ok r => .ok r
    | .error e =>
      if strContains e "0x21" ∧ i < max_busy_retries then
        busyLoopFrom attempts rem (i + 1)
      else .error e

/-- The busy-retry wrapper of send_uds_request around a single-attempt
send (the attempt with index i is the i-th call of
send_uds_request_once). -/
def send_uds_request_busy (attempts : Nat → Except String (List Nat)) :
    Except String (List Nat) :=
  busyLoopFrom attempts (max_busy_retries + 1) 0

/-- A negative response whose echoed sid differs from request[0] makes the
send_uds_request_once loop continue polling. -/
theorem stale_ignored_once (request : List Nat) (m : PassThruMsg)
    (p : List Nat) (r0 : Nat) (hr : request.head? = some r0)
    (hp : m.payload = some p) (h0 : p.headD 0 = 0x7F) (h3 : 3 ≤ p.length)
    (hs : p.getD 1 0 ≠ r0) : onceStep request m = some none := by
  unfold onceStep
  by_cases hds : m.data_size ≤ 4
  · rw [if_pos hds]
  · rw [if_neg hds, hp]
    have hne : p.isEmpty = false := by
      cases p with
      | nil => simp at h3
      | cons a t => rfl
    simp only [hne, Bool.false_eq_true, if_false]
    rw [if_pos ⟨h0, h3⟩]
    simp only [hr]
    rw [if_pos hs]

/-- A batch consisting solely of stale negative responses leaves the
send_uds_request_once loop polling. -/
theorem onceBatch_stale (request : List Nat) (r0 : Nat)
    (hr : request.head? = some r0) :
    ∀ b : List (List Nat),
    (∀ p ∈ b, p.headD 0 = 0x7F ∧ 3 ≤ p.length ∧ p.length ≤ 4124 ∧ p.getD 1 0 ≠ r0) →
    onceBatch request (b.map mkRxMsg) = some none := by
  intro b
  induction b with
  | nil => intro _; rfl
  | cons p t ih =>
    intro hall
    obtain ⟨h0, h3, hlen, hs⟩ := hall p (by simp)
    have hstep : onceStep request (mkRxMsg p) = some none :=
      stale_ignored_once request (mkRxMsg p) p r0 hr
        (mkIso15765_payload 0 p hlen) h0 h3 hs
    simp only [List.map_cons, onceBatch, hstep]
    exact ih (fun q hq => hall q (by simp [hq]))

/-- C2 (amended, the command-layer path): in send_uds_request_once every
negative-response frame whose echoed sid differs from request[0] is
ignored and polling continues, and if only such stale frames ever arrive
the call ends with the timeout error, never a negative response. -/
theorem C2_stale_nrc_ignored :
    (∀ request : List Nat, ∀ m : PassThruMsg, ∀ p : List Nat, ∀ r0 : Nat,
      request.head? = some r0 → m.payload = some p → p.headD 0 = 0x7F →
      3 ≤ p.length → p.getD 1 0 ≠ r0 → onceStep request m = some none) ∧
    (∀ tx_id r0 : Nat, ∀ request : List Nat, ∀ batches : List (List (List Nat)),
      request.head? = some r0 → request.length ≤ 4124 →
      (∀ b ∈ batches, ∀ p ∈ b,
        p.headD 0 = 0x7F ∧ 3 ≤ p.length ∧ p.length ≤ 4124 ∧ p.getD 1 0 ≠ r0) →
      send_uds_request_once tx_id request (batches.map (fun b => b.map mkRxMsg))
        = some (.error "Timeout waiting for response")) := by
  constructor
  · exact stale_ignored_once
  · intro tx_id r0 request batches hr hreq hall
    unfold send_uds_request_once PassThruMsg.new_iso15765 MAX_DATA_SIZE
    rw [if_pos (by omega)]
    induction batches with
    | nil => rfl
    | cons b rest ih =>
      have hb : onceBatch request (b.map mkRxMsg) = some none :=
        onceBatch_stale request r0 hr b (hall b (by simp))
      simp only [List.map_cons, onceLoop, hb]
      exact ih (fun q hq => hall q (by simp [hq]))

/-- C2 witness: the concrete stale scenario on the command-layer path
(request 22 F1 90, lone stale frame 7F 10 12, result Timeout). -/
theorem C2_stale_nrc_ignored_witness :
    send_uds_request_once 0x7B3 [0x22, 0xF1, 0x90]
        ([[[0x7F, 0x10, 0x12]]].map (fun b => b.map mkRxMsg))
      = some (.error "Timeout waiting for response") :=
  C2_stale_nrc_ignored.2 0x7B3 0x22 [0x22, 0xF1, 0x90] [[[0x7F, 0x10, 0x12]]]
    (by decide) (by decide) (by decide)

/-- A non-busy error from the inner attempt is returned without retrying. -/
theorem busyLoop_error_no_contains (attempts : Nat → Except String (List Nat))
    (i rem : Nat) (e : String) (ha : attempts i = .error e)
    (hc : strContains e "0x21" = false) :
    busyLoopFrom attempts (rem + 1) i = .error e := by
  simp only [busyLoopFrom, ha]
  rw [if_neg]
  simp [hc]

/-- If every attempt up to the cap fails with the same error and retries
keep happening, the loop finally returns that error (at busy_attempt = 6
the retry guard busy_attempt < 6 fails). -/
theorem busyLoop_all_error (attempts : Nat → Except String (List Nat))
    (e : String) (hall : ∀ j, j ≤ max_busy_retries → attempts j = .error e) :
    ∀ rem i, i + rem = max_busy_retries + 1 → 1 ≤ rem →
    busyLoopFrom attempts rem i = .error e := by
  intro rem
  induction rem with
  | zero =>
    intro i _ h1
    exact absurd h1 (by omega)
  | succ n ih =>
    intro i hsum _
    have hmax : max_busy_retries = 6 := rfl
    have hi : i ≤ max_busy_retries := by omega
    simp only [busyLoopFrom, hall i hi]
    by_cases hcond : strContains e "0x21" = true ∧ i < max_busy_retries
    · rw [if_pos hcond]
      have h6 : i < 6 := by rw [← hmax]; exact hcond.2
      exact ih (i + 1) (by omega) (by omega)
    · rw [if_neg hcond]

/-- The busy loop result depends only on attempts 0..6. -/
theorem busyLoop_congr (a b : Nat → Except String (List Nat))
    (hag : ∀ i, i ≤ max_busy_retries → a i = b i) :
    ∀ rem i, i + rem ≤ max_busy_retries + 1 →
    busyLoopFrom a rem i = busyLoopFrom b rem i := by
  intro rem
  induction rem with
  | zero => intro i _; rfl
  | succ n ih =>
    intro i hsum
    have hab : a i = b i := hag i (by omega)
    simp only [busyLoopFrom, hab]
    cases hb : b i with
    | ok r => rfl
    | error e =>
      show (if strContains e "0x21" = true ∧ i < max_busy_retries
          then busyLoopFrom a n (i + 1) else Except.error e)
        = (if strContains e "0x21" = true ∧ i < max_busy_retries
          then busyLoopFrom b n (i + 1) else Except.error e)
      by_cases hcond : strContains e "0x21" = true ∧ i < max_busy_retries
      · rw [if_pos hcond, if_pos hcond]
        exact ih (i + 1) (by omega)
      · rw [if_neg hcond, if_neg hcond]

/-- C3 (amended): the busy-retry loop retries only when the inner error
message contains "0x21" (as the busy NRC message does), makes at most
seven attempts (six retries) - its result depends only on attempts 0..6 -
and when every attempt fails with the same busy error it returns that
busy error itself: the "Max busy retries exceeded" fallthrough after the
loop is unreachable. -/
theorem C3_busy_retry :
    (∀ attempts : Nat → Except String (List Nat), ∀ i rem : Nat, ∀ e : String,
      attempts i = .error e → strContains e "0x21" = false →
      busyLoopFrom attempts (rem + 1) i = .error e) ∧
    (∀ attempts : Nat → Except String (List Nat), ∀ e : String,
      (∀ j, j ≤ max_busy_retries → attempts j = .error e) →
      send_uds_request_busy attempts = .error e) ∧
    (∀ a b : Nat → Except String (List Nat),
      (∀ i, i ≤ max_busy_retries → a i = b i) →
      send_uds_request_busy a = send_uds_request_busy b) := by
  refine ⟨busyLoop_error_no_contains, ?_, ?_⟩
  · intro attempts e hall
    exact busyLoop_all_error attempts e hall (max_busy_retries + 1) 0 rfl (by omega)
  · intro a b hag
    exact busyLoop_congr a b hag (max_busy_retries + 1) 0 (by omega)

/-- C3 (counterexample): when all seven attempts fail with the busy NRC
error, send_uds_request returns that busy error, not the claimed
"Max busy retries exceeded". -/
theorem C3_counterexample :
    send_uds_request_busy (fun _ => .error "NRC: Busy - repeat request (0x21)")
      = .error "NRC: Busy - repeat request (0x21)" ∧
    send_uds_request_busy (fun _ => .error "NRC: Busy - repeat request (0x21)")
      ≠ .error "Max busy retries exceeded" := by
  refine ⟨by decide, by decide⟩

/-- C3 witness: the all-busy clause evaluated at the constant busy
attempt function. -/
theorem C3_busy_retry_witness :
    send_uds_request_busy (fun _ => .error "NRC: Busy - repeat request (0x21)")
      = .error "NRC: Busy - repeat request (0x21)" :=
  C3_busy_retry.2.1 (fun _ => .error "NRC: Busy - repeat request (0x21)")
    "NRC: Busy - repeat request (0x21)" (fun _ _ => rfl)

/-! ### ECU emulator (src/src-tauri/src/ecu_emulator.rs)

Per-ECU response synthesis is a pure function of the request bytes; the
Rust slice patterns become list patterns and the inner match on the
16-bit DID becomes an equality chain on the same computed value. -/

/-- The byte sequence of an ASCII string literal (Rust b"..."). -/
def strBytes (s : String) : List Nat := s.data.map (fun ch => ch.toNat)

/-- Vec::resize with zero fill: truncate or zero-extend to length n. -/
def resizeZero (l : List Nat) (n : Nat) : List Nat :=
  (l ++ List.replicate (n - l.length) 0).take n

/-- The inner DID-table match of BcmHandler::build_response (ecu_emulator.rs
lines 99-149, the captured-vehicle data with the requestOutOfRange
default). -/
def bcmDidResponse (did : Nat) : List Nat :=
  match did with
  | 0xF190 => [0x62, 0xF1, 0x90] ++ strBytes "SAJBL4BVXGCY16353"
  | 0xF188 => [0x62, 0xF1, 0x88] ++ resizeZero (strBytes "GX73-14C184-AK") 24
  | 0xF18C => [0x62, 0xF1, 0x8C] ++ strBytes "1979149808"
  | 0xF113 => [0x62, 0xF1, 0x13] ++ resizeZero (strBytes "GX73-14F041-AK") 24
  | 0x40AB => [0x62, 0x40, 0xAB, 0x04]
  | 0x40DE => [0x62, 0x40, 0xDE, 0x01]
  | 0x41DD => [0x62, 0x41, 0xDD, 0x00]
  | 0xA112 => [0x62, 0xA1, 0x12, 0x1F, 0xFF, 0xFF, 0x1F]
  | 0xC124 => [0x62, 0xC1, 0x24, 0x6C, 0x04, 0x6C, 0x04]
  | 0xC190 => [0x62, 0xC1, 0x90, 0x80, 0x00, 0x7D, 0x6C]
  | 0xD134 => [0x62, 0xD1, 0x34, 0x00]
  | 0xDD01 => [0x62, 0xDD, 0x01, 0x03, 0x5F, 0xB8]
  | 0xDD06 => [0x62, 0xDD, 0x06, 0x67]
  | 0xDE02 => [0x62, 0xDE, 0x02] ++ List.replicate 8 0xFF
  | 0xDE03 => [0x62, 0xDE, 0x03] ++ List.replicate 8 0xFF
  | _ => [0x7F, 0x22, 0x31]

/-- BcmHandler::build_response (ecu_emulator.rs lines 86-171). -/
def bcmBuild : List Nat → Option (List Nat)
  | 0x3E :: 0x00 :: _ => some [0x7E, 0x00]
  | 0x10 :: session :: _ => some [0x50, session, 0x00, 0x19, 0x01, 0xF4]
  | 0x11 :: reset_type :: _ => some [0x51, reset_type]
  | 0x22 :: did_hi :: did_lo :: _ =>
    some (bcmDidResponse ((did_hi <<< 8) ||| did_lo))
  | 0x27 :: level :: _ => some [0x67, level, 0x00, 0x00, 0x00]
  | 0x28 :: sub_function :: _ => some [0x68, sub_function]
  | 0x2E :: did_hi :: did_lo :: _ => some [0x6E, did_hi, did_lo]
  | 0x31 :: sub_fn :: rid_hi :: rid_lo :: _ => some [0x71, sub_fn, rid_hi, rid_lo]
  | sid :: _ => some [0x7F, sid, 0x11]
  | [] => none

/-- GwmHandler::build_response (ecu_emulator.rs lines 183-199). -/
def gwmBuild : List Nat → Option (List Nat)
  | 0x3E :: 0x00 :: _ => some [0x7E, 0x00]
  | 0x10 :: session :: _ => some [0x50, session, 0x00, 0x19, 0x01, 0xF4]
  | 0x27 :: level :: _ => some [0x67, level, 0x00, 0x00, 0x00]
  | sid :: _ => some [0x7F, sid, 0x11]
  | [] => none

/-- IpcHandler::build_response (ecu_emulator.rs lines 211-227). -/
def ipcBuild : List Nat → Option (List Nat)
  | 0x3E :: 0x00 :: _ => some [0x7E, 0x00]
  | 0x10 :: session :: _ => some [0x50, session, 0x00, 0x19, 0x01, 0xF4]
  | 0x27 :: level :: _ => some [0x67, level, 0x00, 0x00, 0x00]
  | sid :: _ => some [0x7F, sid, 0x11]
  | [] => none

/-- EcuId from ecu_emulator.rs. -/
inductive EcuId where
  | bcm
  | gwm
  | ipc
  deriving DecidableEq

/-- EcuId::tx_id, the CAN id used to address the ECU. -/
def EcuId.tx_id : EcuId → Nat
  | .bcm => 0x726
  | .gwm => 0x716
  | .ipc => 0x720

/-- create_handler followed by EcuHandler::build_response. -/
def EcuId.build_response : EcuId → List Nat → Option (List Nat)
  | .bcm => bcmBuild
  | .gwm => gwmBuild
  | .ipc => ipcBuild

/-- EcuEmulatorManager::try_handle (ecu_emulator.rs lines 324-331): the
first emulated ECU whose tx id matches answers (even when its handler
yields none); otherwise none. -/
def try_handle (emulated : List EcuId) (tx_id : Nat) (request : List Nat) :
    Option (List Nat) :=
  match emulated with
  | [] => none
  | e :: rest =>
    if e.tx_id = tx_id then e.build_response request
    else try_handle rest tx_id request

/-- The emulator short-circuit at the top of send_uds_request
(commands.rs lines 2321-2331): an emulator response starting 7F with at
least three bytes is surfaced as the NRC error string, any other response
is returned as-is; the transport is never touched. -/
def send_uds_request_emu (emulated : List EcuId) (tx_id : Nat)
    (request : List Nat) : Option (Except String (List Nat)) :=
  (try_handle emulated tx_id request).map (fun response =>
    if response.headD 0 = 0x7F ∧ 3 ≤ response.length then
      .error ("NRC: " ++ nrcDisplay (Nrc.fromByte (response.getD 2 0)))
    else .ok response)

/-- The response-shape invariant of claim C7: the reply begins with
request[0] + 0x40, or is a three-byte negative response 7F request[0] nrc. -/
def emuRespShape (r resp : List Nat) : Bool :=
  (resp.headD 0 == r.headD 0 + 0x40) ||
  (resp.length == 3 && resp.getD 0 0 == 0x7F && resp.getD 1 0 == r.headD 0)

/-- Every entry of the BCM DID table is either a 62-prefixed positive
record or the 7F 22 31 negative response. -/
theorem bcmDidResponse_head (did : Nat) :
    (bcmDidResponse did).headD 0 = 0x62 ∨ bcmDidResponse did = [0x7F, 0x22, 0x31] := by
  unfold bcmDidResponse
  split
  all_goals first
    | (left ; decide)
    | (right ; rfl)

/-- The BCM handler satisfies the response-shape invariant. -/
theorem bcmBuild_shape (r : List Nat) (h : r ≠ []) :
    (bcmBuild r).isSome = true ∧ emuRespShape r ((bcmBuild r).getD []) = true := by
  match r with
  | [] => exact absurd rfl h
  | s0 :: t =>
    unfold bcmBuild
    split
    all_goals try simp_all [emuRespShape]
    rename_i did_hi did_lo tail heq
    rcases bcmDidResponse_head ((did_hi <<< 8) ||| did_lo) with hh | hh <;>
      simp_all [emuRespShape, hh]

/-- The GWM handler satisfies the response-shape invariant. -/
theorem gwmBuild_shape (r : List Nat) (h : r ≠ []) :
    (gwmBuild r).isSome = true ∧ emuRespShape r ((gwmBuild r).getD []) = true := by
  match r with
  | [] => exact absurd rfl h
  | s0 :: t =>
    unfold gwmBuild
    split
    all_goals simp_all [emuRespShape]

/-- The IPC handler satisfies the response-shape invariant. -/
theorem ipcBuild_shape (r : List Nat) (h : r ≠ []) :
    (ipcBuild r).isSome = true ∧ emuRespShape r ((ipcBuild r).getD []) = true := by
  match r with
  | [] => exact absurd rfl h
  | s0 :: t =>
    unfold ipcBuild
    split
    all_goals simp_all [emuRespShape]

/-- C7: every emulated ECU answers every non-empty request, and the
answer either begins with request[0] + 0x40 or is the three-byte negative
response 7F request[0] nrc. -/
theorem C7_emulator_response_shape (e : EcuId) (r : List Nat) (h : r ≠ []) :
    (e.build_response r).isSome = true ∧
    emuRespShape r ((e.build_response r).getD []) = true := by
  cases e with
  | bcm => exact bcmBuild_shape r h
  | gwm => exact gwmBuild_shape r h
  | ipc => exact ipcBuild_shape r h

/-- C7 witness: the BCM handler on the concrete request 22 40 2A. -/
theorem C7_emulator_response_shape_witness :
    (EcuId.build_response .bcm [0x22, 0x40, 0x2A]).isSome = true ∧
    emuRespShape [0x22, 0x40, 0x2A]
      ((EcuId.build_response .bcm [0x22, 0x40, 0x2A]).getD []) = true :=
  C7_emulator_response_shape .bcm [0x22, 0x40, 0x2A] (by decide)

/-- C9: with the BCM emulated, request 22 40 2A to tx 0x726 is answered by
the emulator with the negative response 7F 22 31, which the send path
surfaces as the NRC 0x31 error; request 22 F1 90 is answered with
62 F1 90 followed by exactly the ASCII bytes of the VIN
SAJBL4BVXGCY16353, which the send path returns as a positive response. -/
theorem C9_bcm_emulator :
    try_handle [.bcm] 0x726 [0x22, 0x40, 0x2A] = some [0x7F, 0x22, 0x31] ∧
    send_uds_request_emu [.bcm] 0x726 [0x22, 0x40, 0x2A]
      = some (.error "NRC: Request out of range (0x31)") ∧
    try_handle [.bcm] 0x726 [0x22, 0xF1, 0x90]
      = some ([0x62, 0xF1, 0x90] ++ strBytes "SAJBL4BVXGCY16353") ∧
    strBytes "SAJBL4BVXGCY16353"
      = [0x53, 0x41, 0x4A, 0x42, 0x4C, 0x34, 0x42, 0x56, 0x58, 0x47, 0x43,
         0x59, 0x31, 0x36, 0x33, 0x35, 0x33] ∧
    send_uds_request_emu [.bcm] 0x726 [0x22, 0xF1, 0x90]
      = some (.ok ([0x62, 0xF1, 0x90] ++ strBytes "SAJBL4BVXGCY16353")) := by
  refine ⟨by decide, by decide, by decide, by decide, by decide⟩

/-! ### SecurityAccess flow (src/src-tauri/src/uds/services.rs)

security_access talks to the ECU through client.send_recv; we abstract the
channel as the function from request bytes to the send_recv result and
additionally record the trace of requests sent, so that "the key request
is never issued" is a statement about the trace. -/

/-- security_request_seed (services.rs lines 135-145): sends 27 level and
rejects responses shorter than two bytes.  Second component: requests
sent. -/
def security_request_seed (chan : List Nat → Except UdsError (List Nat))
    (level : Nat) : Except UdsError (List Nat) × List (List Nat) :=
  match chan [0x27, level] with
  | .error e => (.error e, [[0x27, level]])
  | .ok response =>
    if response.length < 2 then
      (.error (.invalidResponse "SecurityAccess seed response too short"),
        [[0x27, level]])
    else (.ok response, [[0x27, level]])

/-- The key-send request [27, key_level, k2, k1, k0] for the KeyGenMkI key
of a seed (the key_bytes construction of services.rs lines 180-188). -/
def keyRequestFor (key_level seed_int : Nat) (constants : List Nat) : List Nat :=
  [0x27, key_level, (keygen_mki seed_int constants >>> 16) &&& 0xFF,
   (keygen_mki seed_int constants >>> 8) &&& 0xFF,
   keygen_mki seed_int constants &&& 0xFF]

/-- security_access (services.rs lines 156-190): request the seed,
interpret an all-zero seed as already unlocked (Ok false, key engine
skipped), otherwise compute the KeyGenMkI key and send it at the key
level, returning Ok true on a positive reply. -/
def security_access (chan : List Nat → Except UdsError (List Nat))
    (seed_level key_level : Nat) (constants : List Nat) :
    Except UdsError Bool × List (List Nat) :=
  match security_request_seed chan seed_level with
  | (.error e, sent) => (.error e, sent)
  | (.ok seed_response, sent) =>
    if seed_response.length < 5 then
      (.error (.invalidResponse "Seed response too short, expected at least 5 bytes"),
        sent)
    else
      let seed_int := ((seed_response.getD 2 0) <<< 16)
        ||| ((seed_response.getD 3 0) <<< 8) ||| (seed_response.getD 4 0)
      if seed_int = 0 then (.ok false, sent)
      else
        match chan (keyRequestFor key_level seed_int constants) with
        | .error e => (.error e, sent ++ [keyRequestFor key_level seed_int constants])
        | .ok _ => (.ok true, sent ++ [keyRequestFor key_level seed_int constants])

/-- C8: when the 67-prefixed seed response carries an all-zero seed the
flow returns Ok(false) having sent only the seed request - the key engine
is never invoked and no key-send request is issued; for a non-zero seed
the KeyGenMkI key is sent at the key level and the flow returns Ok(true)
on a positive reply. -/
theorem C8_zero_seed_already_unlocked :
    (∀ chan : List Nat → Except UdsError (List Nat), ∀ sl kl : Nat,
      ∀ c resp : List Nat,
      chan [0x27, sl] = .ok resp → 5 ≤ resp.length →
      resp.getD 2 0 = 0 → resp.getD 3 0 = 0 → resp.getD 4 0 = 0 →
      security_access chan sl kl c = (.ok false, [[0x27, sl]])) ∧
    (∀ chan : List Nat → Except UdsError (List Nat), ∀ sl kl : Nat,
      ∀ c resp reply : List Nat,
      chan [0x27, sl] = .ok resp → 5 ≤ resp.length →
      ((resp.getD 2 0) <<< 16) ||| ((resp.getD 3 0) <<< 8) ||| (resp.getD 4 0) ≠ 0 →
      chan (keyRequestFor kl
        (((resp.getD 2 0) <<< 16) ||| ((resp.getD 3 0) <<< 8) ||| (resp.getD 4 0)) c)
          = .ok reply →
      security_access chan sl kl c
        = (.ok true, [[0x27, sl],
            keyRequestFor kl
              (((resp.getD 2 0) <<< 16) ||| ((resp.getD 3 0) <<< 8) ||| (resp.getD 4 0))
              c])) := by
  constructor
  · intro chan sl kl c resp hchan hlen h2 h3 h4
    unfold security_access security_request_seed
    rw [hchan]
    simp only [if_neg (show ¬ resp.length < 2 by omega),
      if_neg (show ¬ resp.length < 5 by omega), h2, h3, h4]
    norm_num
  · intro chan sl kl c resp reply hchan hlen hnz hkey
    unfold security_access security_request_seed
    rw [hchan]
    simp only [if_neg (show ¬ resp.length < 2 by omega),
      if_neg (show ¬ resp.length < 5 by omega), if_neg hnz, hkey]
    rfl

/-- C8 witness: a channel answering the seed request with the zero seed
67 11 00 00 00 makes the flow report already-unlocked after one request. -/
theorem C8_zero_seed_already_unlocked_witness :
    security_access
      (fun req => if req = [0x27, 0x11] then .ok [0x67, 0x11, 0x00, 0x00, 0x00]
                  else .error .timeout)
      0x11 0x12 DC0314_CONSTANTS
      = (.ok false, [[0x27, 0x11]]) :=
  C8_zero_seed_already_unlocked.1
    (fun req => if req = [0x27, 0x11] then .ok [0x67, 0x11, 0x00, 0x00, 0x00]
                else .error .timeout)
    0x11 0x12 DC0314_CONSTANTS [0x67, 0x11, 0x00, 0x00, 0x00]
    (by decide) (by decide) (by decide) (by decide) (by decide)

/-- A message with an in-bounds data_size always yields a payload. -/
theorem payload_isSome (m : PassThruMsg) (h : m.data_size ≤ MAX_DATA_SIZE) :
    m.payload.isSome = true := by
  unfold PassThruMsg.payload
  by_cases h4 : 4 < m.data_size
  · rw [if_pos h4, if_pos h]
    rfl
  · rw [if_neg h4]
    rfl

/-- Processing one in-bounds message never panics. -/
theorem clientStep_isSome (sid : Nat) (m : PassThruMsg)
    (h : m.data_size ≤ MAX_DATA_SIZE) :
    (clientStep sid m).isSome = true := by
  by_cases h4 : m.data_size ≤ 4
  · simp [clientStep, h4]
  · obtain ⟨p, hp⟩ := Option.isSome_iff_exists.mp (payload_isSome m h)
    simp only [clientStep, if_neg h4, hp]
    repeat' split
    all_goals rfl

/-- Processing one batch of in-bounds messages never panics. -/
theorem clientBatch_isSome (sid : Nat) (b : List PassThruMsg)
    (h : ∀ m ∈ b, m.data_size ≤ MAX_DATA_SIZE) :
    (clientBatch sid b).isSome = true := by
  induction b with
  | nil => rfl
  | cons m ms ih =>
    have hm := clientStep_isSome sid m (h m (by simp))
    obtain ⟨s, hs⟩ := Option.isSome_iff_exists.mp hm
    simp only [clientBatch, hs]
    rcases s with ⟨r, logs⟩
    rcases r with r | _
    · have hms := ih (fun q hq => h q (by simp [hq]))
      obtain ⟨⟨res, logs2⟩, hms2⟩ := Option.isSome_iff_exists.mp hms
      simp only [hms2]
      rfl
    · rfl

/-- The poll loop over in-bounds read batches never panics. -/
theorem clientLoop_isSome (sid : Nat) (reads : List (List PassThruMsg))
    (h : ∀ b ∈ reads, ∀ m ∈ b, m.data_size ≤ MAX_DATA_SIZE) :
    (clientLoop sid reads).isSome = true := by
  induction reads with
  | nil => rfl
  | cons b rest ih =>
    have hb := clientBatch_isSome sid b (h b (by simp))
    obtain ⟨⟨r, logs⟩, hs⟩ := Option.isSome_iff_exists.mp hb
    simp only [clientLoop, hs]
    rcases r with _ | r
    · have hrest := ih (fun q hq => h q (by simp [hq]))
      obtain ⟨⟨res, logs2⟩, hr2⟩ := Option.isSome_iff_exists.mp hrest
      simp only [hr2]
      rfl
    · rfl

/-- C10: the byte-level operations are not total outside the spec's
bounds - new_iso15765 panics (none) for payloads over 4124 bytes,
payload() panics for data_size over 4128, send_recv and send_no_response
panic on an empty request - and under the stated preconditions
(non-empty request, 4124-byte payload cap, in-bounds frames) none of
these panic branches is reachable. -/
theorem C10_panic_bounds :
    (∀ tx_id : Nat, ∀ payload : List Nat, 4124 < payload.length →
      PassThruMsg.new_iso15765 tx_id payload = none) ∧
    (∀ m : PassThruMsg, 4128 < m.data_size → m.payload = none) ∧
    (∀ tx_id : Nat, ∀ reads : List (List PassThruMsg),
      UdsClient.send_recv tx_id [] reads = none) ∧
    (∀ tx_id : Nat, UdsClient.send_no_response tx_id [] = none) ∧
    (∀ tx_id : Nat, ∀ payload : List Nat, payload.length ≤ 4124 →
      (PassThruMsg.new_iso15765 tx_id payload).isSome = true) ∧
    (∀ m : PassThruMsg, m.data_size ≤ 4128 → m.payload.isSome = true) ∧
    (∀ tx_id : Nat, ∀ request : List Nat, ∀ reads : List (List PassThruMsg),
      request ≠ [] → request.length ≤ 4124 →
      (∀ b ∈ reads, ∀ m ∈ b, m.data_size ≤ 4128) →
      (UdsClient.send_recv tx_id request reads).isSome = true) ∧
    (∀ tx_id : Nat, ∀ request : List Nat, request ≠ [] →
      request.length ≤ 4124 →
      (UdsClient.send_no_response tx_id request).isSome = true) := by
  refine ⟨?_, ?_, ?_, ?_, ?_, ?_, ?_, ?_⟩
  · intro tx_id payload h
    unfold PassThruMsg.new_iso15765 MAX_DATA_SIZE
    rw [if_neg (by omega)]
  · intro m h
    unfold PassThruMsg.payload MAX_DATA_SIZE
    rw [if_pos (by omega), if_neg (by omega)]
  · intro tx_id reads
    rfl
  · intro tx_id
    rfl
  · intro tx_id payload h
    unfold PassThruMsg.new_iso15765 MAX_DATA_SIZE
    rw [if_pos (by omega)]
    rfl
  · intro m h
    exact payload_isSome m h
  · intro tx_id request reads hne hlen hwf
    match request with
    | [] => exact absurd rfl hne
    | r0 :: rest =>
      unfold UdsClient.send_recv
      have hnew : PassThruMsg.new_iso15765 tx_id (r0 :: rest)
          = some (mkIso15765 tx_id (r0 :: rest)) := by
        unfold PassThruMsg.new_iso15765 MAX_DATA_SIZE
        rw [if_pos (by simp at hlen ⊢; omega)]
      simp only [List.head?, hnew]
      have hloop := clientLoop_isSome r0 reads hwf
      obtain ⟨⟨r, logs⟩, hl⟩ := Option.isSome_iff_exists.mp hloop
      simp only [hl]
      rfl
  · intro tx_id request hne hlen
    match request with
    | [] => exact absurd rfl hne
    | r0 :: rest =>
      unfold UdsClient.send_no_response
      have hnew : PassThruMsg.new_iso15765 tx_id (r0 :: rest)
          = some (mkIso15765 tx_id (r0 :: rest)) := by
        unfold PassThruMsg.new_iso15765 MAX_DATA_SIZE
        rw [if_pos (by simp at hlen ⊢; omega)]
      simp only [List.head?, hnew]
      rfl

/-- C10 witness: a 4125-byte payload makes new_iso15765 panic, while a
concrete in-bounds request goes through. -/
theorem C10_panic_bounds_witness :
    PassThruMsg.new_iso15765 0x7B3 (List.replicate 4125 0) = none ∧
    (UdsClient.send_recv 0x7B3 [0x3E, 0x80] []).isSome = true :=
  ⟨C10_panic_bounds.1 0x7B3 (List.replicate 4125 0)
     (by rw [List.length_replicate]; norm_num),
   C10_panic_bounds.2.2.2.2.2.2.1 0x7B3 [0x3E, 0x80] [] (by decide) (by decide)
     (by simp)⟩

end JLR
